import Mathlib

/-!
Shallow embedding of the validatorXrag request-inspection gateway:
the payload-inspection middleware of `validator_service/main.py`, the
incident/telemetry recorder of `validator_service/incident_logger.py`,
and the incident-intake endpoint.  Database side effects are modelled as
explicit state passing over a `DBState`; per-write failure is injected
through boolean flags mirroring a raised exception in the corresponding
`database.execute` call.  The OWASP and regex rule sets are imported by
`main.py` from modules not part of the core sources, so the pipeline is
parameterised over them exactly as `main.py` consumes them: an ordered
list of named predicates (a predicate returning `none` models a raised
exception, which the loop logs and treats as a non-match) and a function
returning all matching regex rule names.
-/

namespace ValidatorXrag

/-- Sublist (contiguous substring) test on character lists, mirroring
Python's `needle in hay` on strings. -/
def charsContain (needle : List Char) : List Char → Bool
  | [] => needle.isEmpty
  | c :: rest => needle.isPrefixOf (c :: rest) || charsContain needle rest

/-- ASCII uppercase of a string, mirroring `str.upper()` on the ASCII
rule names the recorder handles. -/
def strToUpper (s : String) : String := ⟨s.data.map Char.toUpper⟩

/-- Mirrors Python `needle in rule.upper()` from `log_incident`. -/
def upperContains (needle rule : String) : Bool :=
  charsContain needle.data (strToUpper rule).data

/-- String prefix test via character lists, mirroring `str.startswith`. -/
def strStartsWith (pre s : String) : Bool := pre.data.isPrefixOf s.data

/-- A row of the `incidents` table (timestamp omitted: the claims under
study do not mention wall-clock time). `status` defaults to `"open"` on
insert. -/
structure Incident where
  id : Nat
  ip : String
  payload : String
  rule_triggered : String
  status : String
deriving DecidableEq, Repr

/-- A row of the `ttps` table. -/
structure TTPRow where
  incident_id : Nat
  technique_id : String
  technique_name : String
  description : String
deriving DecidableEq, Repr

/-- A row of the `requests` table. -/
structure RequestRow where
  status : String
  client_ip : String
deriving DecidableEq, Repr

/-- A row of the `suricata_logs` table. -/
structure SuricataRow where
  source : String
  signature : String
  category : String
  severity : Nat
deriving DecidableEq, Repr

/-- The relational store, with `nextId` standing for the `incidents`
SERIAL key generator (`insert ... returning id`). -/
structure DBState where
  incidents : List Incident
  ttps : List TTPRow
  requests : List RequestRow
  suricata : List SuricataRow
  nextId : Nat
deriving DecidableEq, Repr

/-- The empty database. -/
def db0 : DBState := ⟨[], [], [], [], 0⟩

/-- `incident_logger.log_ttp`: inserts one TTP row; its own
`try/except` swallows a failing insert (`fail = true`). -/
def log_ttp (fail : Bool) (incident_id : Nat)
    (technique_id technique_name description : String) (st : DBState) : DBState :=
  if fail then st
  else { st with ttps := st.ttps ++ [⟨incident_id, technique_id, technique_name, description⟩] }

/-- `incident_logger.log_request`: inserts one request-outcome row; its
own `try/except` swallows a failing insert. -/
def log_request (fail : Bool) (status client_ip : String) (st : DBState) : DBState :=
  if fail then st
  else { st with requests := st.requests ++ [⟨status, client_ip⟩] }

/-- Result of a `log_incident` call: the database after the call, which
of the writes were attempted, and whether an exception escaped to the
caller (the outer `except Exception` makes this always `false`). -/
structure LogIncidentResult where
  db : DBState
  incidentAttempted : Bool
  ttpAttempted : Bool
  requestAttempted : Bool
  propagates : Bool
deriving Repr

/-- `incident_logger.log_incident`: inserts the incident row, then the
MITRE-mapped TTP row (`"SQL"` before `"XSS"`, case-insensitive substring
of the rule name), then the `"error"` request-outcome row.  All three
sit in one `try` block: a failing incident insert (`incidentFail`)
raises out of it, so the TTP and request-outcome writes are skipped and
the outer `except` logs the error without re-raising. -/
def log_incident (incidentFail ttpFail requestFail : Bool)
    (ip payload rule : String) (st : DBState) : LogIncidentResult :=
  if incidentFail then
    ⟨st, true, false, false, false⟩
  else
    let iid := st.nextId
    let st1 : DBState :=
      { st with incidents := st.incidents ++ [⟨iid, ip, payload, rule, "open"⟩],
                nextId := st.nextId + 1 }
    let st2 :=
      if upperContains "SQL" rule then
        log_ttp ttpFail iid "T1190" "Exploit Public-Facing Application"
          "SQL Injection attempt detected." st1
      else if upperContains "XSS" rule then
        log_ttp ttpFail iid "T1059.007" "Cross-Site Scripting (XSS)"
          "Potential XSS attack detected." st1
      else st1
    ⟨log_request requestFail "error" ip st2, true,
      upperContains "SQL" rule || upperContains "XSS" rule, true, false⟩

/-- `incident_logger.log_suricata_alert`: inserts one alert row;
swallows a failing insert. -/
def log_suricata_alert (fail : Bool) (source signature category : String)
    (severity : Nat) (st : DBState) : DBState :=
  if fail then st
  else { st with suricata := st.suricata ++ [⟨source, signature, category, severity⟩] }

/-- `incident_logger.mark_incident_handled`: `UPDATE incidents SET
status = handled WHERE id = :id`; returns `true` unless the update
statement itself raises (`fail`), even when no row matches. -/
def mark_incident_handled (fail : Bool) (iid : Nat) (st : DBState) : Bool × DBState :=
  if fail then (false, st)
  else
    (true,
      { st with incidents :=
          st.incidents.map fun i => if i.id = iid then { i with status := "handled" } else i })

/-- A parsed 2xx response body of the RAG service, as consumed through
`rag_data.get("verdict")` and `rag_data.get("detected_pattern",
"Unknown Pattern")`: each field is `none` when the key is absent. -/
structure RagBody where
  verdict : Option String
  detected_pattern : Option String
deriving DecidableEq, Repr

/-- Outcome of the outbound `httpx` call to the RAG service.
`transportError` is an `httpx.RequestError` (timeout, connection
refused) raised by `client.post`; `httpResponse is2xx body` is a
received response, with `body = none` when the body is not parseable
JSON. -/
inductive RagOutcome
  | transportError
  | httpResponse (is2xx : Bool) (body : Option RagBody)
deriving DecidableEq, Repr

/-- The middleware's per-request verdict. `bypassed` is an internal
path skipping inspection; `uncaughtError` is an exception escaping the
middleware (the surrounding server turns it into a 500, not one of the
middleware's own responses). -/
inductive PipelineResult
  | bypassed
  | blockedOwasp (rule : String)
  | blockedRegex (rules : List String)
  | blockedRag (rule : String)
  | serviceUnavailable
  | allowed
  | uncaughtError
deriving DecidableEq, Repr

/-- The HTTP status and `detail` string of the `JSONResponse` the
middleware itself returns on a block, `none` when the request proceeds
(or the middleware raised). -/
def responseOf : PipelineResult → Option (Nat × String)
  | .blockedOwasp r => some (403, "Blocked by OWASP rule: " ++ r)
  | .blockedRegex rs => some (403, "Blocked by Regex rule(s): " ++ String.intercalate ", " rs)
  | .blockedRag r => some (403, "Blocked by RAG analysis: " ++ r)
  | .serviceUnavailable => some (503, "Service Unavailable: Analysis service is down.")
  | _ => none

/-- What one middleware run did: its verdict, the database afterwards,
and how many calls reached (or were attempted against) the RAG
service. -/
structure Trace where
  result : PipelineResult
  db : DBState
  ragCalls : Nat
deriving Repr

/-- The configuration `main.py` reads at import time: the ordered OWASP
rule list (a predicate returning `none` models a raised exception), the
regex checker returning every matching rule name, and the resolved
`RAG_SERVICE_URL` value. -/
structure PipelineConfig where
  owaspRules : List (String × (String → Option Bool))
  checkRegex : String → List String
  ragURL : String

/-- `os.getenv("RAG_SERVICE_URL", "http://rag-service:8000/analyze-payload")`:
an absent environment variable falls back to the default service URL. -/
def ragServiceURL (env : Option String) : String :=
  env.getD "http://rag-service:8000/analyze-payload"

/-- `path.startswith(("/api/", "/admin", "/health"))`: internal
endpoints skipped by the middleware. -/
def bypassPath (path : String) : Bool :=
  strStartsWith "/api/" path || strStartsWith "/admin" path || strStartsWith "/health" path

/-- The `for rule_name, rule_fn in OWASP_RULES.items()` loop: first
predicate returning `true` wins; an exception (`none`) is logged and
evaluation continues with the next rule. -/
def owaspScan : List (String × (String → Option Bool)) → String → Option String
  | [], _ => none
  | (n, p) :: rest, payload =>
      match p payload with
      | some true => some n
      | _ => owaspScan rest payload

/-- `main.payload_inspection_middleware`: bypass internal paths, then
OWASP rules (block on first match, logging one incident), then regex
rules (block listing all matches, logging one incident per match), then
the RAG call when `RAG_SERVICE_URL` is truthy.  Only
`httpx.RequestError` is caught there (the 503 fail-closed branch);
`raise_for_status` on a non-2xx response and a JSON parse failure raise
exceptions of other types, which escape the middleware. -/
def payload_inspection_middleware (cfg : PipelineConfig) (rag : RagOutcome)
    (path bodyText query clientIp : String) (st : DBState) : Trace :=
  if bypassPath path then
    { result := .bypassed, db := st, ragCalls := 0 }
  else
    let payload := bodyText ++ query
    match owaspScan cfg.owaspRules payload with
    | some ruleName =>
        { result := .blockedOwasp ruleName,
          db := (log_incident false false false clientIp payload ruleName st).db,
          ragCalls := 0 }
    | none =>
        let triggered := cfg.checkRegex payload
        if triggered.isEmpty then
          if cfg.ragURL = "" then
            { result := .allowed, db := log_request false "success" clientIp st, ragCalls := 0 }
          else
            match rag with
            | .transportError => { result := .serviceUnavailable, db := st, ragCalls := 1 }
            | .httpResponse is2xx body =>
                if is2xx then
                  match body with
                  | none => { result := .uncaughtError, db := st, ragCalls := 1 }
                  | some b =>
                      if b.verdict = some "malicious" then
                        let ruleName := "RAG: " ++ b.detected_pattern.getD "Unknown Pattern"
                        { result := .blockedRag ruleName,
                          db := (log_incident false false false clientIp payload ruleName st).db,
                          ragCalls := 1 }
                      else
                        { result := .allowed, db := log_request false "success" clientIp st,
                          ragCalls := 1 }
                else
                  { result := .uncaughtError, db := st, ragCalls := 1 }
        else
          { result := .blockedRegex triggered,
            db := triggered.foldl
              (fun acc r => (log_incident false false false clientIp payload r acc).db) st,
            ragCalls := 0 }

/-- The JSON body of a `POST /api/incidents` request, as consumed
through `data.get(...)` with defaults: each field is `none` when the
key is absent. -/
structure AddIncidentRequest where
  ip : Option String
  payload : Option String
  rule : Option String
deriving DecidableEq, Repr

/-- `main.add_incident` (`POST /api/incidents?key=...`): admin-key
check, then `log_incident` with the caller-supplied fields (defaults
`"unknown"`, `""`, `"Unknown"`), plus a Suricata alert row when the
rule is prefixed `"SURICATA"`.  Returns the HTTP status and the
database afterwards. -/
def add_incident (keyOk : Bool) (req : AddIncidentRequest) (st : DBState) : Nat × DBState :=
  if keyOk then
    let ip := req.ip.getD "unknown"
    let payload := req.payload.getD ""
    let rule := req.rule.getD "Unknown"
    let st1 := (log_incident false false false ip payload rule st).db
    let st2 :=
      if strStartsWith "SURICATA" rule then
        log_suricata_alert false ip rule "Suricata Alert" 2 st1
      else st1
    (200, st2)
  else (401, st)

/-- The rule at position `i` of the ordered rule list (a never-matching
dummy out of range). -/
def ruleAt (rules : List (String × (String → Option Bool))) (i : Nat) :
    String × (String → Option Bool) :=
  rules.getD i ("", fun _ => none)

/-- Full effect of a `log_incident` call in which every write succeeds. -/
theorem log_incident_db (ip payload rule : String) (st : DBState) :
    (log_incident false false false ip payload rule st).db =
      { st with
        incidents := st.incidents ++ [⟨st.nextId, ip, payload, rule, "open"⟩],
        ttps := st.ttps ++
          (if upperContains "SQL" rule then
            [⟨st.nextId, "T1190", "Exploit Public-Facing Application",
              "SQL Injection attempt detected."⟩]
          else if upperContains "XSS" rule then
            [⟨st.nextId, "T1059.007", "Cross-Site Scripting (XSS)",
              "Potential XSS attack detected."⟩]
          else []),
        requests := st.requests ++ [⟨"error", ip⟩],
        nextId := st.nextId + 1 } := by
  by_cases h1 : upperContains "SQL" rule <;> by_cases h2 : upperContains "XSS" rule <;>
    simp [log_incident, log_ttp, log_request, h1, h2]

theorem log_incident_requests (ip payload rule : String) (st : DBState) :
    (log_incident false false false ip payload rule st).db.requests =
      st.requests ++ [⟨"error", ip⟩] := by
  rw [log_incident_db]

theorem log_incident_incidents (ip payload rule : String) (st : DBState) :
    (log_incident false false false ip payload rule st).db.incidents =
      st.incidents ++ [⟨st.nextId, ip, payload, rule, "open"⟩] := by
  rw [log_incident_db]

theorem foldl_log_incident_requests (rs : List String) (ip payload : String) (st : DBState) :
    (rs.foldl (fun acc r => (log_incident false false false ip payload r acc).db) st).requests =
      st.requests ++ rs.map (fun _ => (⟨"error", ip⟩ : RequestRow)) := by
  induction rs generalizing st with
  | nil => simp
  | cons r rest ih =>
    simp only [List.foldl_cons, List.map_cons]
    rw [ih, log_incident_requests, List.append_assoc]
    rfl

theorem foldl_log_incident_rules (rs : List String) (ip payload : String) (st : DBState) :
    ((rs.foldl (fun acc r => (log_incident false false false ip payload r acc).db)
        st).incidents).map (fun i => i.rule_triggered) =
      st.incidents.map (fun i => i.rule_triggered) ++ rs := by
  induction rs generalizing st with
  | nil => simp
  | cons r rest ih =>
    simp only [List.foldl_cons]
    rw [ih, log_incident_incidents, List.map_append, List.append_assoc]
    rfl

/-- The OWASP loop returns `none` exactly when no predicate returns
`true` (exceptions count as non-matches). -/
theorem owaspScan_eq_none_iff (rules : List (String × (String → Option Bool)))
    (payload : String) :
    owaspScan rules payload = none ↔ ∀ np ∈ rules, np.2 payload ≠ some true := by
  induction rules with
  | nil => simp [owaspScan]
  | cons hd rest ih =>
    obtain ⟨n, p⟩ := hd
    cases hp : p payload with
    | none =>
      simp only [owaspScan, hp, ih, List.mem_cons]
      constructor
      · rintro h np (rfl | hm)
        · simp [hp]
        · exact h np hm
      · intro h np hm
        exact h np (Or.inr hm)
    | some b =>
      cases b with
      | false =>
        simp only [owaspScan, hp, ih, List.mem_cons]
        constructor
        · rintro h np (rfl | hm)
          · simp [hp]
          · exact h np hm
        · intro h np hm
          exact h np (Or.inr hm)
      | true =>
        simp only [owaspScan, hp]
        constructor
        · intro h
          exact absurd h (by simp)
        · intro h
          exact absurd hp (h (n, p) (List.mem_cons_self _ _))

/-- The rule name the OWASP loop returns belongs to the rule list. -/
theorem owaspScan_mem {rules : List (String × (String → Option Bool))}
    {payload : String} {n : String} (h : owaspScan rules payload = some n) :
    n ∈ rules.map Prod.fst := by
  induction rules with
  | nil => simp [owaspScan] at h
  | cons hd rest ih =>
    obtain ⟨m, p⟩ := hd
    cases hp : p payload with
    | none =>
      simp only [owaspScan, hp] at h
      exact List.mem_cons_of_mem _ (ih h)
    | some b =>
      cases b with
      | false =>
        simp only [owaspScan, hp] at h
        exact List.mem_cons_of_mem _ (ih h)
      | true =>
        simp only [owaspScan, hp, Option.some.injEq] at h
        simp [← h]

/-- The rule name the OWASP loop returns is the first one whose
predicate returns `true`, in the list's fixed order. -/
theorem owaspScan_first {rules : List (String × (String → Option Bool))}
    {payload : String} {n : String} (h : owaspScan rules payload = some n) :
    ∃ i, i < rules.length ∧ (ruleAt rules i).1 = n ∧
      (ruleAt rules i).2 payload = some true ∧
      ∀ j, j < i → (ruleAt rules j).2 payload ≠ some true := by
  induction rules with
  | nil => simp [owaspScan] at h
  | cons hd rest ih =>
    obtain ⟨m, p⟩ := hd
    cases hp : p payload with
    | none =>
      simp only [owaspScan, hp] at h
      obtain ⟨i, hi, h1, h2, h3⟩ := ih h
      refine ⟨i + 1, by simpa using hi, ?_, ?_, ?_⟩
      · simpa [ruleAt] using h1
      · simpa [ruleAt] using h2
      · intro j hj
        cases j with
        | zero => simp [ruleAt, hp]
        | succ k =>
          have := h3 k (by omega)
          simpa [ruleAt] using this
    | some b =>
      cases b with
      | false =>
        simp only [owaspScan, hp] at h
        obtain ⟨i, hi, h1, h2, h3⟩ := ih h
        refine ⟨i + 1, by simpa using hi, ?_, ?_, ?_⟩
        · simpa [ruleAt] using h1
        · simpa [ruleAt] using h2
        · intro j hj
          cases j with
          | zero => simp [ruleAt, hp]
          | succ k =>
            have := h3 k (by omega)
            simpa [ruleAt] using this
      | true =>
        simp only [owaspScan, hp, Option.some.injEq] at h
        exact ⟨0, by simp, by simp [ruleAt, h], by simp [ruleAt, hp], by omega⟩

/-- A string with the `"RAG: "` prefix is never empty. -/
theorem rag_prefix_ne_empty (s : String) : ("RAG: " ++ s) ≠ "" := by
  intro h
  have hd := congrArg String.data h
  simp [String.data_append] at hd

/-- A demo OWASP rule for concrete runs: flags the classic tautology
fragment used by the spec's end-to-end scenario. -/
def demoOwaspRule : String × (String → Option Bool) :=
  ("SQLInjection", fun s => some (upperContains "' OR" s))

/-- Configuration with no rules at all and `RAG_SERVICE_URL` left unset
(so the `os.getenv` default applies). -/
def cfgEmpty : PipelineConfig := ⟨[], fun _ => [], ragServiceURL none⟩

/-- Configuration with no rules and `RAG_SERVICE_URL` explicitly set to
the empty string. -/
def cfgNoRag : PipelineConfig := ⟨[], fun _ => [], ragServiceURL (some "")⟩

/-- Configuration with the demo OWASP rule only. -/
def cfgOwasp : PipelineConfig := ⟨[demoOwaspRule], fun _ => [], ragServiceURL none⟩

/-- Configuration with a demo regex checker only: two rule names match
any payload containing a script tag. -/
def cfgRegex : PipelineConfig :=
  ⟨[],
    fun s => if upperContains "<SCRIPT" s then ["XSS Script Tag", "XSS Event Handler"] else [],
    ragServiceURL none⟩

/-- A database holding one open incident, for concrete runs. -/
def db1 : DBState :=
  ⟨[⟨0, "9.9.9.9", "' OR 1=1 --", "SQLInjection", "open"⟩], [], [], [], 1⟩

/-- C1: for every payload for which some signature (OWASP) rule
predicate returns true, the inspection pipeline returns BLOCKED
attributing the first matching rule's name in the rule set's fixed
iteration order, and the semantic fallback client is never invoked for
that request. -/
theorem C1_owasp_first_match_blocks (cfg : PipelineConfig) (rag : RagOutcome)
    (path bodyText query clientIp : String) (st : DBState)
    (hpath : bypassPath path = false)
    (hmatch : ∃ np ∈ cfg.owaspRules, np.2 (bodyText ++ query) = some true) :
    ∃ i, i < cfg.owaspRules.length ∧
      (ruleAt cfg.owaspRules i).2 (bodyText ++ query) = some true ∧
      (∀ j, j < i → (ruleAt cfg.owaspRules j).2 (bodyText ++ query) ≠ some true) ∧
      (payload_inspection_middleware cfg rag path bodyText query clientIp st).result =
        .blockedOwasp (ruleAt cfg.owaspRules i).1 ∧
      (payload_inspection_middleware cfg rag path bodyText query clientIp st).ragCalls = 0 := by
  cases hs : owaspScan cfg.owaspRules (bodyText ++ query) with
  | none =>
    rw [owaspScan_eq_none_iff] at hs
    obtain ⟨np, hm, ht⟩ := hmatch
    exact absurd ht (hs np hm)
  | some n =>
    obtain ⟨i, hi, h1, h2, h3⟩ := owaspScan_first hs
    refine ⟨i, hi, h2, h3, ?_, ?_⟩
    · simp [payload_inspection_middleware, hpath, hs, h1]
    · simp [payload_inspection_middleware, hpath, hs]

/-- Witness for C1: the spec's end-to-end SQL-injection scenario on the
demo configuration. -/
theorem C1_owasp_first_match_blocks_witness :
    ∃ i, i < cfgOwasp.owaspRules.length ∧
      (ruleAt cfgOwasp.owaspRules i).2 ("' OR 1=1 --" ++ "") = some true ∧
      (∀ j, j < i → (ruleAt cfgOwasp.owaspRules j).2 ("' OR 1=1 --" ++ "") ≠ some true) ∧
      (payload_inspection_middleware cfgOwasp .transportError "/login" "' OR 1=1 --" ""
        "1.2.3.4" db0).result = .blockedOwasp (ruleAt cfgOwasp.owaspRules i).1 ∧
      (payload_inspection_middleware cfgOwasp .transportError "/login" "' OR 1=1 --" ""
        "1.2.3.4" db0).ragCalls = 0 :=
  C1_owasp_first_match_blocks cfgOwasp .transportError "/login" "' OR 1=1 --" "" "1.2.3.4" db0
    (by decide) ⟨demoOwaspRule, by simp [cfgOwasp], by decide⟩

/-- C2 counterexample: a non-2xx RAG response does not produce the
503 service-unavailable block; the exception raised by
`raise_for_status` is not an `httpx.RequestError` and escapes the
middleware. -/
theorem C2_counterexample :
    (payload_inspection_middleware cfgEmpty (.httpResponse false none) "/login" "x" ""
      "1.2.3.4" db0).result = .uncaughtError ∧
    (payload_inspection_middleware cfgEmpty (.httpResponse false none) "/login" "x" ""
      "1.2.3.4" db0).result ≠ .serviceUnavailable ∧
    responseOf .uncaughtError = none := by decide

/-- C2 amended: a transport error (timeout, connection refused) makes
the pipeline return the 503 service-unavailable fail-closed block,
distinct from a rule-violation block, with no Incident (or any other)
row written; a non-2xx response or a malformed response body instead
raises an error that escapes the middleware, also writing no row. -/
theorem C2_semantic_failure_modes (cfg : PipelineConfig)
    (path bodyText query clientIp : String) (st : DBState)
    (hpath : bypassPath path = false)
    (hnosig : ∀ np ∈ cfg.owaspRules, np.2 (bodyText ++ query) ≠ some true)
    (hregex : cfg.checkRegex (bodyText ++ query) = [])
    (hurl : cfg.ragURL ≠ "") :
    ((payload_inspection_middleware cfg .transportError path bodyText query clientIp st).result =
        .serviceUnavailable ∧
      (payload_inspection_middleware cfg .transportError path bodyText query clientIp st).db =
        st) ∧
    responseOf .serviceUnavailable =
      some (503, "Service Unavailable: Analysis service is down.") ∧
    (∀ body,
      (payload_inspection_middleware cfg (.httpResponse false body) path bodyText query
        clientIp st).result = .uncaughtError ∧
      (payload_inspection_middleware cfg (.httpResponse false body) path bodyText query
        clientIp st).db = st) ∧
    ((payload_inspection_middleware cfg (.httpResponse true none) path bodyText query
        clientIp st).result = .uncaughtError ∧
      (payload_inspection_middleware cfg (.httpResponse true none) path bodyText query
        clientIp st).db = st) := by
  have hs : owaspScan cfg.owaspRules (bodyText ++ query) = none :=
    (owaspScan_eq_none_iff _ _).mpr hnosig
  refine ⟨⟨?_, ?_⟩, rfl, fun body => ⟨?_, ?_⟩, ?_, ?_⟩ <;>
    simp [payload_inspection_middleware, hpath, hs, hregex, hurl]

/-- Witness for C2's amended statement on the default configuration. -/
theorem C2_semantic_failure_modes_witness :
    ((payload_inspection_middleware cfgEmpty .transportError "/login" "x" "" "1.2.3.4"
        db0).result = .serviceUnavailable ∧
      (payload_inspection_middleware cfgEmpty .transportError "/login" "x" "" "1.2.3.4"
        db0).db = db0) ∧
    responseOf .serviceUnavailable =
      some (503, "Service Unavailable: Analysis service is down.") ∧
    (∀ body,
      (payload_inspection_middleware cfgEmpty (.httpResponse false body) "/login" "x" ""
        "1.2.3.4" db0).result = .uncaughtError ∧
      (payload_inspection_middleware cfgEmpty (.httpResponse false body) "/login" "x" ""
        "1.2.3.4" db0).db = db0) ∧
    ((payload_inspection_middleware cfgEmpty (.httpResponse true none) "/login" "x" ""
        "1.2.3.4" db0).result = .uncaughtError ∧
      (payload_inspection_middleware cfgEmpty (.httpResponse true none) "/login" "x" ""
        "1.2.3.4" db0).db = db0) :=
  C2_semantic_failure_modes cfgEmpty "/login" "x" "" "1.2.3.4" db0
    (by decide) (by simp [cfgEmpty]) rfl (by decide)

/-- C3: a payload matching at least one regex rule and no signature
rule is BLOCKED with a rejection reason listing every matching regex
rule name, and one Incident row is recorded per matching regex rule
name. -/
theorem C3_regex_block_all_names (cfg : PipelineConfig) (rag : RagOutcome)
    (path bodyText query clientIp : String) (st : DBState)
    (hpath : bypassPath path = false)
    (hnosig : ∀ np ∈ cfg.owaspRules, np.2 (bodyText ++ query) ≠ some true)
    (hregex : cfg.checkRegex (bodyText ++ query) ≠ []) :
    (payload_inspection_middleware cfg rag path bodyText query clientIp st).result =
      .blockedRegex (cfg.checkRegex (bodyText ++ query)) ∧
    ((payload_inspection_middleware cfg rag path bodyText query clientIp
        st).db.incidents).map (fun i => i.rule_triggered) =
      st.incidents.map (fun i => i.rule_triggered) ++ cfg.checkRegex (bodyText ++ query) ∧
    responseOf
        (payload_inspection_middleware cfg rag path bodyText query clientIp st).result =
      some (403,
        "Blocked by Regex rule(s): " ++
          String.intercalate ", " (cfg.checkRegex (bodyText ++ query))) := by
  have hs : owaspScan cfg.owaspRules (bodyText ++ query) = none :=
    (owaspScan_eq_none_iff _ _).mpr hnosig
  cases hc : cfg.checkRegex (bodyText ++ query) with
  | nil => exact absurd hc hregex
  | cons r rest =>
    refine ⟨?_, ?_, ?_⟩ <;>
      simp [payload_inspection_middleware, responseOf, hpath, hs, hc,
        foldl_log_incident_rules, log_incident_incidents, List.append_assoc]

/-- Witness for C3: a script-tag payload matching both demo regex
rules. -/
theorem C3_regex_block_all_names_witness :
    (payload_inspection_middleware cfgRegex .transportError "/login" "<script>alert(1)" ""
      "1.2.3.4" db0).result =
      .blockedRegex (cfgRegex.checkRegex ("<script>alert(1)" ++ "")) ∧
    ((payload_inspection_middleware cfgRegex .transportError "/login" "<script>alert(1)" ""
        "1.2.3.4" db0).db.incidents).map (fun i => i.rule_triggered) =
      db0.incidents.map (fun i => i.rule_triggered) ++
        cfgRegex.checkRegex ("<script>alert(1)" ++ "") ∧
    responseOf
        (payload_inspection_middleware cfgRegex .transportError "/login" "<script>alert(1)"
          "" "1.2.3.4" db0).result =
      some (403,
        "Blocked by Regex rule(s): " ++
          String.intercalate ", " (cfgRegex.checkRegex ("<script>alert(1)" ++ ""))) :=
  C3_regex_block_all_names cfgRegex .transportError "/login" "<script>alert(1)" "" "1.2.3.4"
    db0 (by decide) (by simp [cfgRegex]) (by decide)

/-- The request-outcome rows one middleware run actually writes, per
verdict: one `success` row on allow, one `error` row per logged
incident on a block, none on the fail-closed 503, an escaped error, or
a bypass. -/
def expectedOutcomeRows : PipelineResult → String → List RequestRow
  | .allowed, ip => [⟨"success", ip⟩]
  | .blockedOwasp _, ip => [⟨"error", ip⟩]
  | .blockedRag _, ip => [⟨"error", ip⟩]
  | .blockedRegex rs, ip => rs.map fun _ => ⟨"error", ip⟩
  | _, _ => []

/-- C4 counterexample: the fail-closed service-unavailable outcome
writes no Request Outcome row at all, refuting the exactly-one-row
claim for that verdict. -/
theorem C4_counterexample :
    (payload_inspection_middleware cfgEmpty .transportError "/login" "x" "" "1.2.3.4"
      db0).result = .serviceUnavailable ∧
    (payload_inspection_middleware cfgEmpty .transportError "/login" "x" "" "1.2.3.4"
      db0).db.requests = [] := by decide

/-- C4 amended: the request-outcome rows written by one middleware run
are exactly one `success` row on ALLOWED, one `error` row for a
signature or semantic block, one `error` row per matched name for a
regex block, and none for the fail-closed service-unavailable outcome,
an escaped error, or a bypassed path. -/
theorem C4_outcome_rows_per_verdict (cfg : PipelineConfig) (rag : RagOutcome)
    (path bodyText query clientIp : String) (st : DBState) :
    (payload_inspection_middleware cfg rag path bodyText query clientIp st).db.requests =
      st.requests ++
        expectedOutcomeRows
          (payload_inspection_middleware cfg rag path bodyText query clientIp st).result
          clientIp := by
  unfold payload_inspection_middleware
  dsimp only
  split
  · simp [expectedOutcomeRows]
  · split
    · simp [expectedOutcomeRows, log_incident_requests]
    · split
      · split
        · simp [expectedOutcomeRows, log_request]
        · split
          · simp [expectedOutcomeRows]
          · split
            · split
              · simp [expectedOutcomeRows]
              · split
                · simp [expectedOutcomeRows, log_incident_requests]
                · simp [expectedOutcomeRows, log_request]
            · simp [expectedOutcomeRows]
      · simp [expectedOutcomeRows, foldl_log_incident_requests]

/-- C5 counterexample: when the incident insert itself fails, the
request-outcome write is not attempted (the single `try` block aborts),
refuting the claim that it still is. -/
theorem C5_counterexample :
    (log_incident true false false "9.9.9.9" "x" "SQL Injection" db0).requestAttempted =
      false ∧
    (log_incident true false false "9.9.9.9" "x" "SQL Injection" db0).ttpAttempted = false ∧
    (log_incident true false false "9.9.9.9" "x" "SQL Injection" db0).db.requests = [] := by
  decide

/-- C5 amended: `log_incident` never propagates an error to its caller;
a failing TTP or request-outcome insert is swallowed locally and does
not prevent the sibling writes (in particular the request-outcome row
is still written whenever its own insert succeeds); but a failing
incident insert aborts the whole block, skipping the TTP and
request-outcome writes. -/
theorem C5_best_effort_writes (fi ft fr : Bool) (ip payload rule : String) (st : DBState) :
    (log_incident fi ft fr ip payload rule st).propagates = false ∧
    (fi = true →
      (log_incident fi ft fr ip payload rule st).db = st ∧
      (log_incident fi ft fr ip payload rule st).ttpAttempted = false ∧
      (log_incident fi ft fr ip payload rule st).requestAttempted = false) ∧
    (fi = false →
      (log_incident fi ft fr ip payload rule st).incidentAttempted = true ∧
      (log_incident fi ft fr ip payload rule st).requestAttempted = true ∧
      (fr = false →
        (log_incident fi ft fr ip payload rule st).db.requests =
          st.requests ++ [⟨"error", ip⟩])) := by
  cases fi with
  | true => simp [log_incident]
  | false =>
    refine ⟨by simp [log_incident], by simp, fun _ => ⟨by simp [log_incident],
      by simp [log_incident], fun hfr => ?_⟩⟩
    subst hfr
    by_cases h1 : upperContains "SQL" rule <;> by_cases h2 : upperContains "XSS" rule <;>
      cases ft <;> simp [log_incident, log_ttp, log_request, h1, h2]

/-- Witness for C5's amended statement: a failing TTP insert on an
SQL-mapped rule still leaves the request-outcome row written. -/
theorem C5_best_effort_writes_witness :
    (log_incident false true false "9.9.9.9" "x" "SQL Injection" db0).propagates = false ∧
    (false = true →
      (log_incident false true false "9.9.9.9" "x" "SQL Injection" db0).db = db0 ∧
      (log_incident false true false "9.9.9.9" "x" "SQL Injection" db0).ttpAttempted =
        false ∧
      (log_incident false true false "9.9.9.9" "x" "SQL Injection" db0).requestAttempted =
        false) ∧
    (false = false →
      (log_incident false true false "9.9.9.9" "x" "SQL Injection"
        db0).incidentAttempted = true ∧
      (log_incident false true false "9.9.9.9" "x" "SQL Injection"
        db0).requestAttempted = true ∧
      (false = false →
        (log_incident false true false "9.9.9.9" "x" "SQL Injection" db0).db.requests =
          db0.requests ++ [⟨"error", "9.9.9.9"⟩])) :=
  C5_best_effort_writes false true false "9.9.9.9" "x" "SQL Injection" db0

/-- C6 counterexample: a rule name containing both "SQL" and "XSS"
falls into the `elif`'s first branch, so despite containing "XSS" it
produces no T1059.007 row, refuting the claim's XSS clause. -/
theorem C6_counterexample :
    upperContains "XSS" "SQL/XSS Mixed" = true ∧
    (log_incident false false false "9.9.9.9" "x" "SQL/XSS Mixed" db0).db.ttps.countP
      (fun t => t.technique_id == "T1059.007") = 0 ∧
    (log_incident false false false "9.9.9.9" "x" "SQL/XSS Mixed" db0).db.ttps.countP
      (fun t => t.technique_id == "T1190") = 1 := by decide

/-- C6 amended: a recorded incident whose rule name contains "SQL"
case-insensitively creates exactly one TTP row, with technique id
T1190; one containing "XSS" but not "SQL" creates exactly one TTP row,
with technique id T1059.007; any other rule name creates zero TTP
rows. -/
theorem C6_ttp_mapping (ip payload rule : String) (st : DBState) :
    (upperContains "SQL" rule = true →
      ((log_incident false false false ip payload rule st).db.ttps.drop
          st.ttps.length).countP (fun t => t.technique_id == "T1190") = 1 ∧
      ((log_incident false false false ip payload rule st).db.ttps.drop
          st.ttps.length).length = 1) ∧
    (upperContains "SQL" rule = false → upperContains "XSS" rule = true →
      ((log_incident false false false ip payload rule st).db.ttps.drop
          st.ttps.length).countP (fun t => t.technique_id == "T1059.007") = 1 ∧
      ((log_incident false false false ip payload rule st).db.ttps.drop
          st.ttps.length).length = 1) ∧
    (upperContains "SQL" rule = false → upperContains "XSS" rule = false →
      (log_incident false false false ip payload rule st).db.ttps.drop st.ttps.length =
        []) := by
  rw [log_incident_db]
  by_cases h1 : upperContains "SQL" rule <;> by_cases h2 : upperContains "XSS" rule <;>
    simp [h1, h2, List.drop_left]

/-- Witness for C6's amended statement at an XSS-only rule name. -/
theorem C6_ttp_mapping_witness :
    (upperContains "SQL" "XSS Attack" = true →
      ((log_incident false false false "9.9.9.9" "x" "XSS Attack" db0).db.ttps.drop
          db0.ttps.length).countP (fun t => t.technique_id == "T1190") = 1 ∧
      ((log_incident false false false "9.9.9.9" "x" "XSS Attack" db0).db.ttps.drop
          db0.ttps.length).length = 1) ∧
    (upperContains "SQL" "XSS Attack" = false → upperContains "XSS" "XSS Attack" = true →
      ((log_incident false false false "9.9.9.9" "x" "XSS Attack" db0).db.ttps.drop
          db0.ttps.length).countP (fun t => t.technique_id == "T1059.007") = 1 ∧
      ((log_incident false false false "9.9.9.9" "x" "XSS Attack" db0).db.ttps.drop
          db0.ttps.length).length = 1) ∧
    (upperContains "SQL" "XSS Attack" = false → upperContains "XSS" "XSS Attack" = false →
      (log_incident false false false "9.9.9.9" "x" "XSS Attack" db0).db.ttps.drop
        db0.ttps.length = []) :=
  C6_ttp_mapping "9.9.9.9" "x" "XSS Attack" db0

/-- Every rule name a middleware run attaches to a new incident comes
from the OWASP rule list, the regex checker's output, or carries the
`"RAG: "` prefix. -/
theorem middleware_incident_rules (cfg : PipelineConfig) (rag : RagOutcome)
    (path bodyText query clientIp : String) (st : DBState) :
    ∃ newRules : List String,
      ((payload_inspection_middleware cfg rag path bodyText query clientIp
          st).db.incidents).map (fun i => i.rule_triggered) =
        st.incidents.map (fun i => i.rule_triggered) ++ newRules ∧
      ∀ r ∈ newRules,
        r ∈ cfg.owaspRules.map Prod.fst ∨ r ∈ cfg.checkRegex (bodyText ++ query) ∨
          ∃ s, r = "RAG: " ++ s := by
  unfold payload_inspection_middleware
  dsimp only
  split
  · exact ⟨[], by simp, by simp⟩
  · split
    · next n heq =>
      refine ⟨[n], by simp [log_incident_incidents], ?_⟩
      intro r hr
      rw [List.mem_singleton] at hr
      subst hr
      exact Or.inl (owaspScan_mem heq)
    · split
      · split
        · exact ⟨[], by simp [log_request], by simp⟩
        · split
          · exact ⟨[], by simp, by simp⟩
          · split
            · split
              · exact ⟨[], by simp, by simp⟩
              · split
                · next b hb =>
                  refine ⟨["RAG: " ++ b.detected_pattern.getD "Unknown Pattern"],
                    by simp [log_incident_incidents], ?_⟩
                  intro r hr
                  rw [List.mem_singleton] at hr
                  subst hr
                  exact Or.inr (Or.inr ⟨_, rfl⟩)
                · exact ⟨[], by simp [log_request], by simp⟩
            · exact ⟨[], by simp, by simp⟩
      · refine ⟨cfg.checkRegex (bodyText ++ query), by simp [foldl_log_incident_rules], ?_⟩
        intro r hr
        exact Or.inr (Or.inl hr)

/-- C7 counterexample: the incident-intake endpoint persists a
caller-supplied empty rule name verbatim, so a persisted incident can
have an empty `rule_triggered`. -/
theorem C7_counterexample :
    ∃ i ∈ (add_incident true ⟨some "9.9.9.9", some "x", some ""⟩ db0).2.incidents,
      i.rule_triggered = "" := by decide

/-- C7 amended: incidents persisted by the inspection pipeline have a
non-empty `rule_triggered` whenever every configured signature and
regex rule name is non-empty (semantic blocks always carry the
non-empty `"RAG: "` prefix); the intake endpoint guarantees this only
when the caller does not supply an explicitly empty rule (an absent
rule defaults to `"Unknown"`). -/
theorem C7_rule_triggered_nonempty (cfg : PipelineConfig) (rag : RagOutcome)
    (path bodyText query clientIp : String) (st : DBState)
    (req : AddIncidentRequest) (keyOk : Bool)
    (hnames : ∀ np ∈ cfg.owaspRules, np.1 ≠ "")
    (hregex : ∀ p r, r ∈ cfg.checkRegex p → r ≠ "")
    (hst : ∀ i ∈ st.incidents, i.rule_triggered ≠ "")
    (hreq : req.rule ≠ some "") :
    (∀ i ∈ (payload_inspection_middleware cfg rag path bodyText query clientIp
        st).db.incidents, i.rule_triggered ≠ "") ∧
    (∀ i ∈ (add_incident keyOk req st).2.incidents, i.rule_triggered ≠ "") := by
  constructor
  · obtain ⟨newRules, hmap, hmem⟩ :=
      middleware_incident_rules cfg rag path bodyText query clientIp st
    intro i hi
    have hin : i.rule_triggered ∈
        ((payload_inspection_middleware cfg rag path bodyText query clientIp
          st).db.incidents).map (fun i => i.rule_triggered) :=
      List.mem_map_of_mem _ hi
    rw [hmap] at hin
    rcases List.mem_append.1 hin with h | h
    · obtain ⟨j, hj, hje⟩ := List.mem_map.1 h
      rw [← hje]
      exact hst j hj
    · rcases hmem _ h with h1 | h2 | ⟨s, hse⟩
      · obtain ⟨np, hnp, hne⟩ := List.mem_map.1 h1
        rw [← hne]
        exact hnames np hnp
      · exact hregex _ _ h2
      · rw [hse]
        exact rag_prefix_ne_empty s
  · cases keyOk with
    | false => simpa [add_incident] using hst
    | true =>
      have hrule : req.rule.getD "Unknown" ≠ "" := by
        cases hr : req.rule with
        | none => decide
        | some r =>
          simp only [Option.getD_some]
          intro h
          exact hreq (by rw [hr, h])
      intro i hi
      simp only [add_incident, if_pos] at hi
      have hi2 : i ∈ (log_incident false false false (req.ip.getD "unknown")
          (req.payload.getD "") (req.rule.getD "Unknown") st).db.incidents := by
        by_cases hsur : strStartsWith "SURICATA" (req.rule.getD "Unknown") = true <;>
          simp [hsur, log_suricata_alert] at hi <;> exact hi
      rw [log_incident_incidents] at hi2
      rcases List.mem_append.1 hi2 with h | h
      · exact hst i h
      · rw [List.mem_singleton] at h
        subst h
        exact hrule

/-- Witness for C7's amended statement on the demo OWASP
configuration and a non-empty intake rule. -/
theorem C7_rule_triggered_nonempty_witness :
    (∀ i ∈ (payload_inspection_middleware cfgOwasp .transportError "/login" "' OR 1=1 --"
        "" "1.2.3.4" db0).db.incidents, i.rule_triggered ≠ "") ∧
    (∀ i ∈ (add_incident true ⟨some "9.9.9.9", some "x", some "TestRule"⟩
        db0).2.incidents, i.rule_triggered ≠ "") :=
  C7_rule_triggered_nonempty cfgOwasp .transportError "/login" "' OR 1=1 --" "" "1.2.3.4"
    db0 ⟨some "9.9.9.9", some "x", some "TestRule"⟩ true
    (by decide) (by simp [cfgOwasp]) (by simp [db0]) (by decide)

/-- C8 counterexample: when `RAG_SERVICE_URL` is absent from the
environment, `os.getenv` substitutes the default service URL, so the
semantic stage is still attempted — refuting the claim that absence
degrades to rule-sets-only inspection. -/
theorem C8_counterexample :
    ragServiceURL none = "http://rag-service:8000/analyze-payload" ∧
    (payload_inspection_middleware cfgEmpty .transportError "/login" "x" "" "1.2.3.4"
      db0).ragCalls = 1 := by decide

/-- C8 amended: only when the configured service location is the empty
string (e.g. `RAG_SERVICE_URL` explicitly set to `""`) does the
pipeline run rule-sets-only inspection, never attempting the semantic
stage for any request; an absent variable falls back to a default
location and the stage is attempted. -/
theorem C8_empty_url_skips_semantic (cfg : PipelineConfig) (rag : RagOutcome)
    (path bodyText query clientIp : String) (st : DBState)
    (hurl : cfg.ragURL = "") :
    (payload_inspection_middleware cfg rag path bodyText query clientIp st).ragCalls =
      0 := by
  unfold payload_inspection_middleware
  dsimp only
  rw [hurl]
  simp only [reduceIte]
  split
  · rfl
  · split
    · rfl
    · split
      · rfl
      · rfl

/-- Witness for C8's amended statement: `RAG_SERVICE_URL` set to the
empty string skips the semantic stage. -/
theorem C8_empty_url_skips_semantic_witness :
    (payload_inspection_middleware cfgNoRag .transportError "/login" "x" "" "1.2.3.4"
      db0).ragCalls = 0 :=
  C8_empty_url_skips_semantic cfgNoRag .transportError "/login" "x" "" "1.2.3.4" db0 rfl

/-- C9: `mark_incident_handled` on an existing incident id sets its
status to `handled` and reports success; a second call on the same id
also succeeds and leaves the database unchanged (idempotence). -/
theorem C9_mark_handled_idempotent (iid : Nat) (st : DBState)
    (_hex : ∃ i ∈ st.incidents, i.id = iid) :
    (mark_incident_handled false iid st).1 = true ∧
    (∀ i ∈ (mark_incident_handled false iid st).2.incidents,
      i.id = iid → i.status = "handled") ∧
    (mark_incident_handled false iid (mark_incident_handled false iid st).2).1 = true ∧
    (mark_incident_handled false iid (mark_incident_handled false iid st).2).2 =
      (mark_incident_handled false iid st).2 := by
  refine ⟨rfl, ?_, rfl, ?_⟩
  · intro i hi hid
    simp only [mark_incident_handled, if_neg, Bool.false_eq_true, reduceIte] at hi
    obtain ⟨j, hj, hje⟩ := List.mem_map.1 hi
    by_cases h : j.id = iid
    · rw [← hje]
      simp [h]
    · rw [← hje] at hid
      simp [h] at hid
  · simp only [mark_incident_handled, Bool.false_eq_true, reduceIte]
    have hmm : ∀ l : List Incident,
        (l.map fun i => if i.id = iid then { i with status := "handled" } else i).map
          (fun i => if i.id = iid then { i with status := "handled" } else i) =
        l.map fun i => if i.id = iid then { i with status := "handled" } else i := by
      intro l
      rw [List.map_map]
      apply List.map_congr_left
      intro i _
      by_cases h : i.id = iid <;> simp [h]
    rw [hmm]

/-- Witness for C9 on a database holding one open incident. -/
theorem C9_mark_handled_idempotent_witness :
    (mark_incident_handled false 0 db1).1 = true ∧
    (∀ i ∈ (mark_incident_handled false 0 db1).2.incidents,
      i.id = 0 → i.status = "handled") ∧
    (mark_incident_handled false 0 (mark_incident_handled false 0 db1).2).1 = true ∧
    (mark_incident_handled false 0 (mark_incident_handled false 0 db1).2).2 =
      (mark_incident_handled false 0 db1).2 :=
  C9_mark_handled_idempotent 0 db1
    ⟨⟨0, "9.9.9.9", "' OR 1=1 --", "SQLInjection", "open"⟩, by simp [db1], rfl⟩

/-- C10: a well-formed 2xx RAG response whose verdict field is absent
or holds any value other than the exact string "malicious" — not only
"benign" — lets the request through ALLOWED, recording one success
outcome row and no incident. -/
theorem C10_only_malicious_blocks (cfg : PipelineConfig)
    (path bodyText query clientIp : String) (st : DBState) (b : RagBody)
    (hpath : bypassPath path = false)
    (hnosig : ∀ np ∈ cfg.owaspRules, np.2 (bodyText ++ query) ≠ some true)
    (hregex : cfg.checkRegex (bodyText ++ query) = [])
    (hurl : cfg.ragURL ≠ "")
    (hv : b.verdict ≠ some "malicious") :
    (payload_inspection_middleware cfg (.httpResponse true (some b)) path bodyText query
      clientIp st).result = .allowed ∧
    (payload_inspection_middleware cfg (.httpResponse true (some b)) path bodyText query
      clientIp st).db.requests = st.requests ++ [⟨"success", clientIp⟩] ∧
    (payload_inspection_middleware cfg (.httpResponse true (some b)) path bodyText query
      clientIp st).db.incidents = st.incidents := by
  have hs : owaspScan cfg.owaspRules (bodyText ++ query) = none :=
    (owaspScan_eq_none_iff _ _).mpr hnosig
  refine ⟨?_, ?_, ?_⟩ <;>
    simp [payload_inspection_middleware, hpath, hs, hregex, hurl, hv, log_request]

/-- Witness for C10: a 2xx response whose verdict is the unexpected
string "suspicious" is still allowed through. -/
theorem C10_only_malicious_blocks_witness :
    (payload_inspection_middleware cfgEmpty
      (.httpResponse true (some ⟨some "suspicious", none⟩)) "/login" "x" "" "1.2.3.4"
      db0).result = .allowed ∧
    (payload_inspection_middleware cfgEmpty
      (.httpResponse true (some ⟨some "suspicious", none⟩)) "/login" "x" "" "1.2.3.4"
      db0).db.requests = db0.requests ++ [⟨"success", "1.2.3.4"⟩] ∧
    (payload_inspection_middleware cfgEmpty
      (.httpResponse true (some ⟨some "suspicious", none⟩)) "/login" "x" "" "1.2.3.4"
      db0).db.incidents = db0.incidents :=
  C10_only_malicious_blocks cfgEmpty "/login" "x" "" "1.2.3.4" db0
    ⟨some "suspicious", none⟩ (by decide) (by simp [cfgEmpty]) rfl (by decide) (by decide)

end ValidatorXrag
